import Mathlib

/-!
Shallow embedding of the beast-ai-dev-agent repository
(`src/beast_ai_dev_agent/common/models.py`, `cloudrun/agent.py`,
`gke/agent.py`, `cloud_functions/agent.py`).

Conventions of the embedding:
* Python `Dict[str, Any]` values are modelled by `PyVal` / `PyDict`;
  dict literals keep their keys as string literals, in source order.
* Python `float` samples and results are modelled by `ℚ`.
* Nondeterministic runtime inputs (`datetime.utcnow()`, `uuid.uuid4()`,
  measured elapsed time, `os.getenv`) are passed in explicitly as an
  `Oracle` record or as parameters; the code never branches on them
  except where shown.
* A Python function that can raise returns `Except String _`; the message
  is the rendered exception text.
* Mutation of `self` is explicit state passing on `AgentState`
  (the mutable attributes set in `KiroAgentInterface.__init__`).
-/

/-- The fragment of Python values (`Any`) that the agents build and pass
around: strings, ints, bools, floats (as `ℚ`), lists and string-keyed
dicts. -/
inductive PyVal : Type where
  | str : String → PyVal
  | int : Int → PyVal
  | bool : Bool → PyVal
  | rat : ℚ → PyVal
  | list : List PyVal → PyVal
  | dict : List (String × PyVal) → PyVal

/-- A Python `Dict[str, Any]`: an association list with string keys. -/
abbrev PyDict := List (String × PyVal)

/-- Dictionary lookup (`d[k]` / `d.get(k)`): first binding of key `k`. -/
def pyGet (d : PyDict) (k : String) : Option PyVal :=
  match d.find? (fun kv => kv.1 == k) with
  | some kv => some kv.2
  | none => none

/-- Lookup in a `Dict[str, str]` (headers, query params). -/
def strGet (d : List (String × String)) (k : String) : Option String :=
  match d.find? (fun kv => kv.1 == k) with
  | some kv => some kv.2
  | none => none

/-- Python `str.lower`, modelled on the character sequence. -/
def strLower (s : String) : String := ⟨s.data.map Char.toLower⟩

/-- Length of Python `str(v)` for our value fragment, as used by
`len(str(data))` in `analyze_data`.  Strings render with single quotes,
dicts and lists with their Python punctuation.  (Python float `repr` is
approximated by Lean's rendering of `ℚ`; no theorem below depends on the
rendering of floats.) -/
def pyRepr : PyVal → String
  | .str s => "\x27" ++ s ++ "\x27"
  | .int n => toString n
  | .bool b => if b then "True" else "False"
  | .rat q => toString q
  | .list xs => "[" ++ String.intercalate ", " (xs.attach.map (fun x => pyRepr x.1)) ++ "]"
  | .dict kvs =>
      "\x7b" ++
        String.intercalate ", "
          (kvs.attach.map (fun kv => "\x27" ++ kv.1.1 ++ "\x27: " ++ pyRepr kv.1.2)) ++
      "\x7d"
decreasing_by
  all_goals try simp_wf
  all_goals
    first
      | (have hx := List.sizeOf_lt_of_mem x.2
         omega)
      | (have h1 := List.sizeOf_lt_of_mem kv.2
         have h2 : sizeOf kv.1.2 < sizeOf kv.1 := by
           obtain ⟨a, b⟩ := kv.1
           simp
           try omega
         omega)

/-- `KiroRequest` dataclass (`common/models.py`). -/
structure KiroRequest : Type where
  data : PyDict
  headers : List (String × String)
  method : String
  path : String
  query_params : List (String × String)
  timestamp : String

/-- `KiroResponse` dataclass (`common/models.py`). -/
structure KiroResponse : Type where
  status_code : Nat
  data : PyDict
  headers : List (String × String)
  timestamp : String

/-- `KiroMetrics` dataclass (`common/models.py`): eight fields, none with a
default value. -/
structure KiroMetrics : Type where
  platform : String
  instance_id : String
  timestamp : String
  request_count : Nat
  error_count : Nat
  avg_response_time : ℚ
  memory_usage : ℚ
  cpu_usage : ℚ

/-- The generated `KiroMetrics.__init__` as called with keyword arguments:
a dataclass constructor call raises `TypeError` unless every field without
a default receives an argument.  `none` stands for an omitted keyword. -/
def callKiroMetricsInit (platform instance_id timestamp : Option String)
    (request_count error_count : Option Nat)
    (avg_response_time memory_usage cpu_usage : Option ℚ) :
    Except String KiroMetrics :=
  match platform, instance_id, timestamp, request_count, error_count,
        avg_response_time, memory_usage, cpu_usage with
  | some p, some i, some t, some rc, some ec, some a, some m, some c =>
      .ok ⟨p, i, t, rc, ec, a, m, c⟩
  | _, _, _, _, _, _, _, _ =>
      .error "TypeError: KiroMetrics.__init__ missing required arguments"

/-- The mutable attributes set in `KiroAgentInterface.__init__`
(`self.platform`, `self.request_count`, `self.error_count`,
`self.response_times`).  The logger, FastAPI app and port are I/O wiring
outside the data model. -/
structure AgentState : Type where
  platform : String
  request_count : Nat
  error_count : Nat
  response_times : List ℚ

/-- `KiroAgentInterface.__init__(self, platform)`. -/
def KiroAgentInterface.init (platform : String) : AgentState :=
  { platform := platform, request_count := 0, error_count := 0, response_times := [] }

/-- Runtime inputs of one request-handling call: the `uuid.uuid4().hex[:8]`
fragment, the successive `datetime.utcnow()` readings, and the measured
elapsed time `(end_time - start_time).total_seconds()`. -/
structure Oracle : Type where
  uuid_hex8 : String
  analysis_timestamp : String
  end_timestamp : String
  error_timestamp : String
  response_time : ℚ

/-- `KiroAgentInterface._generate_analysis_id`:
`f"kiro_\x7bself.platform\x7d_\x7buuid.uuid4().hex[:8]\x7d"`. -/
def KiroAgentInterface.generate_analysis_id (platform uuid_hex8 : String) : String :=
  "kiro_" ++ platform ++ "_" ++ uuid_hex8

/-- `KiroAgentInterface._perform_analysis`: placeholder analysis result.
(The `data` argument is unused by the placeholder, as in the source.) -/
def KiroAgentInterface.perform_analysis (_data : PyDict) : PyDict :=
  [("status", .str "analyzed"),
   ("confidence", .rat (19 / 20)),
   ("categories", .list [.str "example_category"]),
   ("insights", .list [.str "Example insight from analysis"])]

/-- `KiroAgentInterface._get_processing_time`: placeholder `0.1`. -/
def KiroAgentInterface.get_processing_time : ℚ := 1 / 10

/-- `KiroAgentInterface.analyze_data` (`common/models.py` lines 80-100):
builds the result dict; none of its components can raise, so the
`try`/`except`-and-reraise wrapper is the identity here. -/
def KiroAgentInterface.analyze_data (o : Oracle) (platform : String) (data : PyDict) : PyDict :=
  [("analysis_id", .str (KiroAgentInterface.generate_analysis_id platform o.uuid_hex8)),
   ("platform", .str platform),
   ("timestamp", .str o.analysis_timestamp),
   ("input_data", .dict data),
   ("analysis_result", .dict (KiroAgentInterface.perform_analysis data)),
   ("metadata",
     .dict [("processing_time", .rat KiroAgentInterface.get_processing_time),
            ("data_size", .int (pyRepr (.dict data)).length)])]

/-- `KiroAgentInterface.validate_request` (`common/models.py` lines 119-135).
The guarded body (`not request.data`, membership test) cannot raise, so the
`except` branch is dead; the function is total and returns `Bool`. -/
def KiroAgentInterface.validate_request (request : KiroRequest) : Bool :=
  if request.data.isEmpty then
    false
  else if !(["GET", "POST", "PUT", "DELETE"].contains request.method) then
    false
  else
    true

/-- `KiroAgentInterface.create_error_response`: increments `error_count`
and builds the standardized error envelope.  `ts1`, `ts2` are the two
`datetime.utcnow()` readings. -/
def KiroAgentInterface.create_error_response (ts1 ts2 : String) (st : AgentState)
    (error_message : String) (status_code : Nat) : AgentState × KiroResponse :=
  ({ st with error_count := st.error_count + 1 },
   { status_code := status_code,
     data := [("status", .str "error"), ("message", .str error_message),
              ("platform", .str st.platform), ("timestamp", .str ts1)],
     headers := [("Content-Type", "application/json")],
     timestamp := ts2 })

/-- `KiroAgentInterface.create_success_response`: increments
`request_count` and builds the standardized success envelope. -/
def KiroAgentInterface.create_success_response (ts1 ts2 : String) (st : AgentState)
    (data : PyDict) (status_code : Nat) : AgentState × KiroResponse :=
  ({ st with request_count := st.request_count + 1 },
   { status_code := status_code,
     data := [("status", .str "success"), ("platform", .str st.platform),
              ("timestamp", .str ts1), ("result", .dict data)],
     headers := [("Content-Type", "application/json")],
     timestamp := ts2 })

/-- `CloudRunKiroAgent.__init__`: `super().__init__(platform="cloudrun")`
(the FastAPI app and port are HTTP wiring, not part of the agent state). -/
def CloudRunKiroAgent.init : AgentState :=
  KiroAgentInterface.init "cloudrun"

/-- `GKEKiroAgent.__init__`: `super().__init__()` (the Cloud Run
constructor) followed by `self.platform = "gke"`. -/
def GKEKiroAgent.init : AgentState :=
  { CloudRunKiroAgent.init with platform := "gke" }

/-- `CloudFunctionsKiroAgent.__init__`: `super().__init__(platform="cloud_functions")`. -/
def CloudFunctionsKiroAgent.init : AgentState :=
  KiroAgentInterface.init "cloud_functions"

/-- `CloudRunKiroAgent.process_request` (`cloudrun/agent.py` lines 114-147).
The analysis step is passed in as a fallible function `analyze`, because
`analyze_data` re-raises any exception of the underlying analysis routine
(and `_perform_analysis` is overridable); the concrete, exception-free
routine of `models.py` is `KiroAgentInterface.analyze_data` above.
Note `self.request_count += 1` runs inside the `try` block before the
analysis, so it also counts requests whose analysis fails; the platform
strings in the headers and the error payload are the literal `"cloudrun"`. -/
def CloudRunKiroAgent.process_request (analyze : PyDict → Except String PyDict)
    (o : Oracle) (st : AgentState) (request : KiroRequest) : AgentState × KiroResponse :=
  let st1 := { st with request_count := st.request_count + 1 }
  match analyze request.data with
  | .ok result =>
      let st2 := { st1 with response_times := st1.response_times ++ [o.response_time] }
      (st2,
       { status_code := 200,
         data := result,
         headers := [("X-Platform", "cloudrun"), ("X-Response-Time", toString o.response_time)],
         timestamp := o.end_timestamp })
  | .error e =>
      ({ st1 with error_count := st1.error_count + 1 },
       { status_code := 500,
         data := [("error", .str e), ("platform", .str "cloudrun")],
         headers := [("X-Platform", "cloudrun")],
         timestamp := o.error_timestamp })

/-- `CloudFunctionsKiroAgent.process_request` (`cloud_functions/agent.py`
lines 23-51): same counter discipline as Cloud Run; headers carry
`"cloud_functions"` on both paths and the error payload has no platform
key. -/
def CloudFunctionsKiroAgent.process_request (analyze : PyDict → Except String PyDict)
    (o : Oracle) (st : AgentState) (request : KiroRequest) : AgentState × KiroResponse :=
  let st1 := { st with request_count := st.request_count + 1 }
  match analyze request.data with
  | .ok result =>
      let st2 := { st1 with response_times := st1.response_times ++ [o.response_time] }
      (st2,
       { status_code := 200,
         data := result,
         headers := [("X-Platform", "cloud_functions")],
         timestamp := o.end_timestamp })
  | .error e =>
      ({ st1 with error_count := st1.error_count + 1 },
       { status_code := 500,
         data := [("error", .str e)],
         headers := [("X-Platform", "cloud_functions")],
         timestamp := o.error_timestamp })

/-- `CloudRunKiroAgent._get_uptime`: simplified `0.0`. -/
def CloudRunKiroAgent.get_uptime : ℚ := 0

/-- `CloudRunKiroAgent._check_redis`: reads
`os.getenv("BEAST_MODE_ENABLED", "false")`; when the flag is not `"true"`
(the default) it returns `"disabled"` without attempting a connection,
otherwise the stubbed probe reports `"healthy"`. -/
def CloudRunKiroAgent.check_redis (beast_mode_env : Option String) : String :=
  if strLower (beast_mode_env.getD "false") == "true" then "healthy" else "disabled"

/-- `CloudRunKiroAgent._check_disk`: simplified `"healthy"`. -/
def CloudRunKiroAgent.check_disk : String := "healthy"

/-- `CloudRunKiroAgent.health_check` (`cloudrun/agent.py` lines 149-159):
the platform field is the literal `"cloudrun"`. -/
def CloudRunKiroAgent.health_check (beast_mode_env : Option String) (now : String)
    (st : AgentState) : PyDict :=
  [("status", .str "healthy"),
   ("platform", .str "cloudrun"),
   ("timestamp", .str now),
   ("uptime", .rat CloudRunKiroAgent.get_uptime),
   ("request_count", .int st.request_count),
   ("error_count", .int st.error_count),
   ("checks",
     .dict [("redis", .str (CloudRunKiroAgent.check_redis beast_mode_env)),
            ("disk", .str CloudRunKiroAgent.check_disk)])]

/-- `CloudFunctionsKiroAgent.health_check` (`cloud_functions/agent.py`
lines 53-59): three fields only, no dependency checks. -/
def CloudFunctionsKiroAgent.health_check (st : AgentState) : PyDict :=
  [("status", .str "healthy"),
   ("platform", .str "cloud_functions"),
   ("request_count", .int st.request_count)]

/-- `CloudRunKiroAgent.get_metrics` (`cloudrun/agent.py` lines 161-176):
computes the average response time, then calls the `KiroMetrics`
constructor with keyword arguments `platform`, `request_count`,
`error_count`, `avg_response_time`, `memory_usage`, `cpu_usage` — and
without `instance_id` or `timestamp`.  `mem`/`cpu` are the best-effort
`psutil` readings (0.0 when `psutil` is unavailable). -/
def CloudRunKiroAgent.get_metrics (mem cpu : ℚ) (st : AgentState) :
    Except String KiroMetrics :=
  let avg : ℚ :=
    if st.response_times.isEmpty then 0
    else st.response_times.sum / (st.response_times.length : ℚ)
  callKiroMetricsInit (some "cloudrun") none none
    (some st.request_count) (some st.error_count) (some avg) (some mem) (some cpu)

/-- `CloudFunctionsKiroAgent.get_metrics` (`cloud_functions/agent.py`
lines 61-72): also omits `instance_id` and `timestamp` in the
`KiroMetrics` call. -/
def CloudFunctionsKiroAgent.get_metrics (st : AgentState) :
    Except String KiroMetrics :=
  callKiroMetricsInit (some "cloud_functions") none none
    (some st.request_count) (some st.error_count) (some 0) (some 0) (some 0)

/-- The three concrete agent classes. -/
inductive AgentClass : Type where
  | cloudrun : AgentClass
  | gke : AgentClass
  | cloud_functions : AgentClass
deriving DecidableEq

/-- Constructor dispatch: which `__init__` runs for each class. -/
def AgentClass.initState : AgentClass → AgentState
  | .cloudrun => CloudRunKiroAgent.init
  | .gke => GKEKiroAgent.init
  | .cloud_functions => CloudFunctionsKiroAgent.init

/-- Method resolution for `process_request`: `GKEKiroAgent` declares no
override, so it inherits `CloudRunKiroAgent.process_request`. -/
def AgentClass.process_request : AgentClass →
    (PyDict → Except String PyDict) → Oracle → AgentState → KiroRequest →
    AgentState × KiroResponse
  | .cloudrun => CloudRunKiroAgent.process_request
  | .gke => CloudRunKiroAgent.process_request
  | .cloud_functions => CloudFunctionsKiroAgent.process_request

/-- Method resolution for `health_check` (GKE inherits Cloud Run's). -/
def AgentClass.health_check :
    AgentClass → Option String → String → AgentState → PyDict
  | .cloudrun => CloudRunKiroAgent.health_check
  | .gke => CloudRunKiroAgent.health_check
  | .cloud_functions => fun _ _ st => CloudFunctionsKiroAgent.health_check st

/-- Method resolution for `get_metrics` (GKE inherits Cloud Run's). -/
def AgentClass.get_metrics : AgentClass → ℚ → ℚ → AgentState → Except String KiroMetrics
  | .cloudrun => CloudRunKiroAgent.get_metrics
  | .gke => CloudRunKiroAgent.get_metrics
  | .cloud_functions => fun _ _ st => CloudFunctionsKiroAgent.get_metrics st

/-- `KiroAgentFactory.get_available_platforms`. -/
def KiroAgentFactory.get_available_platforms : List String := ["gke", "cloudrun"]

/-- `KiroAgentFactory.validate_platform`. -/
def KiroAgentFactory.validate_platform (platform : String) : Bool :=
  KiroAgentFactory.get_available_platforms.contains platform

/-- `KiroAgentFactory.create_agent` (`common/models.py` lines 185-197):
closed two-branch dispatch, `ValueError` otherwise. -/
def KiroAgentFactory.create_agent (platform : String) :
    Except String (AgentClass × AgentState) :=
  if platform = "gke" then .ok (.gke, GKEKiroAgent.init)
  else if platform = "cloudrun" then .ok (.cloudrun, CloudRunKiroAgent.init)
  else .error ("Unknown platform: " ++ platform)

/-- One request handled by an agent: the analysis routine's behavior on
this request, the runtime oracle, and the request itself. -/
structure RequestStep : Type where
  analyze : PyDict → Except String PyDict
  o : Oracle
  req : KiroRequest

/-- Whether a step's analysis fails (raises) on its request's data. -/
def RequestStep.fails (s : RequestStep) : Bool :=
  match s.analyze s.req.data with
  | .ok _ => false
  | .error _ => true

/-- Run `process_request` over a sequence of requests, threading the
agent state. -/
def processMany (cls : AgentClass) : AgentState → List RequestStep → AgentState
  | st, [] => st
  | st, s :: rest =>
      processMany cls (cls.process_request s.analyze s.o st s.req).1 rest

/-- The platform literal hardcoded by the class whose code actually runs
for `process_request`/`health_check`: `GKEKiroAgent` declares neither, so
the Cloud Run implementation (with its `"cloudrun"` literals) serves it. -/
def AgentClass.impl_platform : AgentClass → String
  | .cloudrun => "cloudrun"
  | .gke => "cloudrun"
  | .cloud_functions => "cloud_functions"

/-- A sample runtime oracle used in concrete evaluations. -/
def sampleOracle : Oracle :=
  { uuid_hex8 := "abcd1234",
    analysis_timestamp := "2024-01-01T00:00:00",
    end_timestamp := "2024-01-01T00:00:01",
    error_timestamp := "2024-01-01T00:00:02",
    response_time := 1 / 10 }

/-- A sample `POST /analyze` request with body `\x7b"x": 1\x7d`. -/
def sampleRequest : KiroRequest :=
  { data := [("x", .int 1)],
    headers := [],
    method := "POST",
    path := "/analyze",
    query_params := [],
    timestamp := "2024-01-01T00:00:00" }

/-- Counter effect of a single `process_request` call, for every agent
class: `request_count` always advances by one (the increment precedes the
analysis inside the `try` block), `error_count` advances exactly when the
analysis raises, and nothing else about the counters changes. -/
theorem processRequestCounters (cls : AgentClass) (s : RequestStep) (st : AgentState) :
    (cls.process_request s.analyze s.o st s.req).1.request_count = st.request_count + 1 ∧
    (cls.process_request s.analyze s.o st s.req).1.error_count =
      st.error_count + (if s.fails then 1 else 0) := by
  cases cls <;>
    { cases h : s.analyze s.req.data <;>
        simp [AgentClass.process_request, CloudRunKiroAgent.process_request,
          CloudFunctionsKiroAgent.process_request, RequestStep.fails, h] }

/-- Counters after a run of requests, from an arbitrary starting state. -/
theorem processManyCounters (cls : AgentClass) (steps : List RequestStep) (st : AgentState) :
    (processMany cls st steps).request_count = st.request_count + steps.length ∧
    (processMany cls st steps).error_count =
      st.error_count + steps.countP RequestStep.fails := by
  induction steps generalizing st with
  | nil => simp [processMany]
  | cons s rest ih =>
      obtain ⟨h1, h2⟩ := processRequestCounters cls s st
      obtain ⟨ih1, ih2⟩ := ih (cls.process_request s.analyze s.o st s.req).1
      constructor
      · rw [processMany, ih1, h1]
        simp
        omega
      · rw [processMany, ih2, h2]
        rw [List.countP_cons]
        by_cases hf : s.fails <;> simp [RequestStep.fails] at hf <;>
          simp [RequestStep.fails, hf] <;> omega

/-- C1: the claim says `get_metrics()` returns a `Metrics` record without
raising.  On the code it cannot: every `get_metrics` implementation calls
the `KiroMetrics` dataclass constructor without the required
`instance_id` and `timestamp` fields, so every call — on a fresh instance
as well as on any other state, for every agent class — raises `TypeError`
instead of returning.  (The average itself is computed with the guarded
mean formula before the failing constructor call.) -/
theorem C1_get_metrics_always_raises (cls : AgentClass) (mem cpu : ℚ) (st : AgentState) :
    cls.get_metrics mem cpu st =
      Except.error "TypeError: KiroMetrics.__init__ missing required arguments" := by
  cases cls <;>
    simp [AgentClass.get_metrics, CloudRunKiroAgent.get_metrics,
      CloudFunctionsKiroAgent.get_metrics, callKiroMetricsInit]

/-- C2: on every agent class, whenever the analysis step raises,
`process_request` returns normally (no exception escapes) with a status
500 response whose data carries the failure message under `"error"`, and
`error_count` advances by exactly one. -/
theorem C2_failures_contained (cls : AgentClass)
    (analyze : PyDict → Except String PyDict) (o : Oracle) (st : AgentState)
    (req : KiroRequest) (msg : String) (h : analyze req.data = Except.error msg) :
    (cls.process_request analyze o st req).1.error_count = st.error_count + 1 ∧
    (cls.process_request analyze o st req).2.status_code = 500 ∧
    pyGet (cls.process_request analyze o st req).2.data "error" = some (.str msg) := by
  cases cls <;>
    simp [AgentClass.process_request, CloudRunKiroAgent.process_request,
      CloudFunctionsKiroAgent.process_request, h, pyGet]

/-- Witness for C2 at a concrete input: a failing analysis on a fresh
Cloud Run agent yields a 500 error response and one counted error. -/
theorem C2_failures_contained_witness :
    ((fun _ => Except.error "boom" : PyDict → Except String PyDict) sampleRequest.data
        = Except.error "boom") ∧
    ((AgentClass.cloudrun.process_request (fun _ => Except.error "boom")
        sampleOracle CloudRunKiroAgent.init sampleRequest).1.error_count =
          CloudRunKiroAgent.init.error_count + 1 ∧
     (AgentClass.cloudrun.process_request (fun _ => Except.error "boom")
        sampleOracle CloudRunKiroAgent.init sampleRequest).2.status_code = 500 ∧
     pyGet (AgentClass.cloudrun.process_request (fun _ => Except.error "boom")
        sampleOracle CloudRunKiroAgent.init sampleRequest).2.data "error" =
          some (.str "boom")) :=
  ⟨rfl, C2_failures_contained AgentClass.cloudrun (fun _ => Except.error "boom")
    sampleOracle CloudRunKiroAgent.init sampleRequest "boom" rfl⟩

/-- A request sequence splits into its succeeding and failing analyses. -/
theorem countFails_split (steps : List RequestStep) :
    steps.length = steps.countP (fun s => !s.fails) + steps.countP RequestStep.fails := by
  induction steps with
  | nil => simp
  | cons s rest ih =>
      rw [List.length_cons, List.countP_cons, List.countP_cons]
      by_cases hf : s.fails <;> simp [hf, ih] <;> omega

/-- C3: starting from a fresh instance of any agent class, after handling
a sequence of requests of which N analyses succeed and M fail, the code
pins the counting policy to `request_count == N + M` (the increment runs
before the analysis inside the `try` block, so failed requests are also
counted) and `error_count == M`. -/
theorem C3_counter_policy (cls : AgentClass) (steps : List RequestStep) :
    (processMany cls cls.initState steps).request_count =
      steps.countP (fun s => !s.fails) + steps.countP RequestStep.fails ∧
    (processMany cls cls.initState steps).error_count =
      steps.countP RequestStep.fails := by
  obtain ⟨h1, h2⟩ := processManyCounters cls steps cls.initState
  have hz : cls.initState.request_count = 0 ∧ cls.initState.error_count = 0 := by
    cases cls <;>
      simp [AgentClass.initState, CloudRunKiroAgent.init, GKEKiroAgent.init,
        CloudFunctionsKiroAgent.init, KiroAgentInterface.init]
  have hlen := countFails_split steps
  constructor
  · rw [h1, hz.1, hlen]
    omega
  · rw [h2, hz.2]
    omega

/-- C4: `validate_request` is total (the guarded body cannot raise) and
returns true exactly on requests with non-empty data and a method among
GET, POST, PUT, DELETE; empty data or any other method yields false. -/
theorem C4_validate_request_characterization (req : KiroRequest) :
    KiroAgentInterface.validate_request req = true ↔
      (req.data ≠ [] ∧ req.method ∈ ["GET", "POST", "PUT", "DELETE"]) := by
  cases hd : req.data with
  | nil => simp [KiroAgentInterface.validate_request, hd]
  | cons kv rest =>
      simp [KiroAgentInterface.validate_request, hd]

/-- C5: the factory's mapping is closed: construction succeeds exactly on
the enumeration `["gke", "cloudrun"]` returned by
`get_available_platforms`; any other name (including
`"cloud_functions"`) raises the "Unknown platform" `ValueError`; and
`validate_platform` is the membership test on that enumeration. -/
theorem C5_factory_closed_mapping (platform : String) :
    KiroAgentFactory.get_available_platforms = ["gke", "cloudrun"] ∧
    (KiroAgentFactory.validate_platform platform = true ↔
      platform ∈ KiroAgentFactory.get_available_platforms) ∧
    ((∃ a, KiroAgentFactory.create_agent platform = Except.ok a) ↔
      platform ∈ KiroAgentFactory.get_available_platforms) ∧
    (platform ∉ KiroAgentFactory.get_available_platforms →
      KiroAgentFactory.create_agent platform =
        Except.error ("Unknown platform: " ++ platform)) := by
  refine ⟨rfl, ?_, ?_, ?_⟩
  · by_cases h1 : platform = "gke"
    · subst h1
      decide
    · by_cases h2 : platform = "cloudrun"
      · subst h2
        decide
      · simp [KiroAgentFactory.validate_platform,
          KiroAgentFactory.get_available_platforms, List.contains_cons, h1, h2]
  · by_cases h1 : platform = "gke"
    · subst h1
      simp [KiroAgentFactory.create_agent, KiroAgentFactory.get_available_platforms]
    · by_cases h2 : platform = "cloudrun"
      · subst h2
        simp [KiroAgentFactory.create_agent, KiroAgentFactory.get_available_platforms]
      · simp [KiroAgentFactory.create_agent, KiroAgentFactory.get_available_platforms,
          h1, h2]
  · intro hmem
    have h1 : platform ≠ "gke" := by
      intro h
      exact hmem (by simp [h, KiroAgentFactory.get_available_platforms])
    have h2 : platform ≠ "cloudrun" := by
      intro h
      exact hmem (by simp [h, KiroAgentFactory.get_available_platforms])
    simp [KiroAgentFactory.create_agent, h1, h2]

/-- Witness for C5 at the concrete name `"cloud_functions"`: an adapter
class exists for it, but the factory rejects it. -/
theorem C5_factory_closed_mapping_witness :
    "cloud_functions" ∉ KiroAgentFactory.get_available_platforms ∧
    KiroAgentFactory.create_agent "cloud_functions" =
      Except.error ("Unknown platform: " ++ "cloud_functions") :=
  ⟨by decide, (C5_factory_closed_mapping "cloud_functions").2.2.2 (by decide)⟩

/-- C10: `create_error_response` increments exactly `error_count` and
`create_success_response` increments exactly `request_count`; neither
touches the platform name or the recorded response-time samples, and each
returns the standardized envelope with the requested status code. -/
theorem C10_envelope_builders (ts1 ts2 : String) (st : AgentState) (msg : String)
    (code1 : Nat) (data : PyDict) (code2 : Nat) :
    (KiroAgentInterface.create_error_response ts1 ts2 st msg code1).1.error_count =
        st.error_count + 1 ∧
    (KiroAgentInterface.create_error_response ts1 ts2 st msg code1).1.request_count =
        st.request_count ∧
    (KiroAgentInterface.create_error_response ts1 ts2 st msg code1).1.platform =
        st.platform ∧
    (KiroAgentInterface.create_error_response ts1 ts2 st msg code1).1.response_times =
        st.response_times ∧
    (KiroAgentInterface.create_error_response ts1 ts2 st msg code1).2.status_code = code1 ∧
    pyGet (KiroAgentInterface.create_error_response ts1 ts2 st msg code1).2.data "status" =
        some (.str "error") ∧
    pyGet (KiroAgentInterface.create_error_response ts1 ts2 st msg code1).2.data "message" =
        some (.str msg) ∧
    pyGet (KiroAgentInterface.create_error_response ts1 ts2 st msg code1).2.data "platform" =
        some (.str st.platform) ∧
    (KiroAgentInterface.create_success_response ts1 ts2 st data code2).1.request_count =
        st.request_count + 1 ∧
    (KiroAgentInterface.create_success_response ts1 ts2 st data code2).1.error_count =
        st.error_count ∧
    (KiroAgentInterface.create_success_response ts1 ts2 st data code2).1.platform =
        st.platform ∧
    (KiroAgentInterface.create_success_response ts1 ts2 st data code2).1.response_times =
        st.response_times ∧
    (KiroAgentInterface.create_success_response ts1 ts2 st data code2).2.status_code = code2 ∧
    pyGet (KiroAgentInterface.create_success_response ts1 ts2 st data code2).2.data "status" =
        some (.str "success") ∧
    pyGet (KiroAgentInterface.create_success_response ts1 ts2 st data code2).2.data "result" =
        some (.dict data) := by
  refine ⟨rfl, rfl, rfl, rfl, rfl, ?_, ?_, ?_, rfl, rfl, rfl, rfl, rfl, ?_, ?_⟩ <;>
    simp [KiroAgentInterface.create_error_response,
      KiroAgentInterface.create_success_response, pyGet]

/-- C6 counterexample: on a fresh GKE agent (platform attribute `"gke"`),
a successfully processed request carries an `X-Platform` header whose
value is the inherited literal `"cloudrun"`, not the instance's platform
attribute. -/
theorem C6_counterexample :
    strGet ((AgentClass.gke.process_request
        (fun d => Except.ok
          (KiroAgentInterface.analyze_data sampleOracle GKEKiroAgent.init.platform d))
        sampleOracle GKEKiroAgent.init sampleRequest).2.headers) "X-Platform" ≠
      some GKEKiroAgent.init.platform := by
  intro h
  have h2 : some "cloudrun" = some "gke" := h
  simp at h2

/-- C6 amended: every variant's `process_request` response, on the success
path and the failure path alike, carries an `X-Platform` header; its value
is the platform literal of the class whose implementation runs — equal to
the instance's platform attribute for the cloudrun and cloud_functions
variants, but the inherited `"cloudrun"` for the gke variant, whose
attribute is `"gke"`. -/
theorem C6_amended_platform_header (cls : AgentClass)
    (analyze : PyDict → Except String PyDict) (o : Oracle) (st : AgentState)
    (req : KiroRequest) :
    strGet ((cls.process_request analyze o st req).2.headers) "X-Platform" =
      some cls.impl_platform ∧
    AgentClass.cloudrun.impl_platform = AgentClass.cloudrun.initState.platform ∧
    AgentClass.cloud_functions.impl_platform =
      AgentClass.cloud_functions.initState.platform ∧
    AgentClass.gke.impl_platform = "cloudrun" ∧
    AgentClass.gke.initState.platform = "gke" := by
  refine ⟨?_, rfl, rfl, rfl, rfl⟩
  cases cls <;> cases h : analyze req.data <;>
    simp [AgentClass.process_request, CloudRunKiroAgent.process_request,
      CloudFunctionsKiroAgent.process_request, AgentClass.impl_platform, strGet, h]

/-- C7 counterexample: at a concrete call the generated analysis id is
`"kiro_cloudrun_abcd1234"`; the agent's platform name is not a prefix of
it, as character sequences (the fixed `"kiro_"` tag comes first). -/
theorem C7_counterexample :
    pyGet (KiroAgentInterface.analyze_data sampleOracle "cloudrun" sampleRequest.data)
        "analysis_id" = some (.str "kiro_cloudrun_abcd1234") ∧
    "cloudrun".data.isPrefixOf "kiro_cloudrun_abcd1234".data = false := by
  constructor
  · rfl
  · rfl

/-- C7 amended: `analyze_data` returns the original data unchanged under
`input_data`; the analysis id equals `"kiro_" ++ platform ++ "_" ++ uuid`
(so it carries the platform name right after the fixed `"kiro_"` tag
rather than as its leading prefix); the metadata carries
`processing_time` and `data_size`; the analysis result has status
`"analyzed"`; and a processed `POST /analyze` request with body
`\x7b"x": 1\x7d` yields status 200 with those fields, on every variant. -/
theorem C7_amended_analysis_payload (o : Oracle) (platform : String) (data : PyDict)
    (cls : AgentClass) (st : AgentState) :
    pyGet (KiroAgentInterface.analyze_data o platform data) "input_data" =
      some (.dict data) ∧
    pyGet (KiroAgentInterface.analyze_data o platform data) "analysis_id" =
      some (.str ("kiro_" ++ platform ++ "_" ++ o.uuid_hex8)) ∧
    pyGet (KiroAgentInterface.analyze_data o platform data) "metadata" =
      some (.dict [("processing_time", .rat (1 / 10)),
                   ("data_size", .int (pyRepr (.dict data)).length)]) ∧
    (∃ ar, pyGet (KiroAgentInterface.analyze_data o platform data) "analysis_result" =
        some (.dict ar) ∧ pyGet ar "status" = some (.str "analyzed")) ∧
    ((cls.process_request
        (fun d => Except.ok (KiroAgentInterface.analyze_data o st.platform d))
        o st sampleRequest).2.status_code = 200 ∧
     pyGet (cls.process_request
        (fun d => Except.ok (KiroAgentInterface.analyze_data o st.platform d))
        o st sampleRequest).2.data "input_data" = some (.dict [("x", .int 1)]) ∧
     (∃ ar, pyGet (cls.process_request
          (fun d => Except.ok (KiroAgentInterface.analyze_data o st.platform d))
          o st sampleRequest).2.data "analysis_result" = some (.dict ar) ∧
        pyGet ar "status" = some (.str "analyzed"))) := by
  refine ⟨rfl, rfl, rfl,
    ⟨KiroAgentInterface.perform_analysis data, rfl, rfl⟩, ?_⟩
  cases cls <;>
    exact ⟨rfl, rfl,
      ⟨KiroAgentInterface.perform_analysis sampleRequest.data, rfl, rfl⟩⟩

/-- C8: `process_request` does not gate its input through
`validate_request`: a request with empty data — for any method whatsoever
— fails validation, yet (when the analysis succeeds, as the concrete
shared routine always does) it is analyzed and answered with status 200
and the empty-data analysis payload, on every variant. -/
theorem C8_validation_not_invoked (cls : AgentClass) (o : Oracle) (st : AgentState)
    (method path ts : String) (hdrs qp : List (String × String)) :
    KiroAgentInterface.validate_request ⟨[], hdrs, method, path, qp, ts⟩ = false ∧
    (cls.process_request
        (fun d => Except.ok (KiroAgentInterface.analyze_data o st.platform d))
        o st ⟨[], hdrs, method, path, qp, ts⟩).2.status_code = 200 ∧
    (cls.process_request
        (fun d => Except.ok (KiroAgentInterface.analyze_data o st.platform d))
        o st ⟨[], hdrs, method, path, qp, ts⟩).2.data =
      KiroAgentInterface.analyze_data o st.platform [] := by
  refine ⟨rfl, ?_, ?_⟩ <;> cases cls <;> rfl

/-- C9 counterexample: a fresh GKE agent's health payload reports
`platform: "cloudrun"` (the inherited literal), not the instance's own
platform attribute `"gke"`. -/
theorem C9_counterexample :
    pyGet (AgentClass.gke.health_check none "2024-01-01T00:00:00" GKEKiroAgent.init)
        "platform" = some (.str "cloudrun") ∧
    GKEKiroAgent.init.platform = "gke" ∧
    PyVal.str "cloudrun" ≠ PyVal.str "gke" := by
  refine ⟨rfl, rfl, ?_⟩
  intro h
  injection h with h2
  simp at h2

/-- C9 amended: `health_check` always returns (it cannot raise) a payload
with `status: "healthy"`, the current `request_count`, and a `platform`
field holding the implementing class's literal — the instance's own name
for cloudrun and cloud_functions, `"cloudrun"` for gke; when the Beast
Mode flag is not `"true"` (the default), the Cloud Run implementation
(serving cloudrun and gke) reports the dependency status
`checks.redis = "disabled"` without probing, while the cloud_functions
payload has no dependency-status field at all. -/
theorem C9_amended_health_payload (cls : AgentClass) (st : AgentState)
    (env : Option String) (now : String)
    (hdis : (strLower (env.getD "false") == "true") = false) :
    pyGet (cls.health_check env now st) "status" = some (.str "healthy") ∧
    pyGet (cls.health_check env now st) "platform" = some (.str cls.impl_platform) ∧
    pyGet (cls.health_check env now st) "request_count" =
      some (.int st.request_count) ∧
    (cls ≠ AgentClass.cloud_functions →
      ∃ cs, pyGet (cls.health_check env now st) "checks" = some (.dict cs) ∧
        pyGet cs "redis" = some (.str "disabled")) ∧
    (cls = AgentClass.cloud_functions →
      pyGet (cls.health_check env now st) "checks" = none) := by
  cases cls
  case cloud_functions =>
    refine ⟨rfl, rfl, rfl, ?_, fun _ => rfl⟩
    intro h
    exact absurd rfl h
  all_goals
    refine ⟨rfl, rfl, rfl, ?_, ?_⟩
    · intro _
      refine ⟨[("redis", .str (CloudRunKiroAgent.check_redis env)),
               ("disk", .str CloudRunKiroAgent.check_disk)], rfl, ?_⟩
      simp [pyGet, CloudRunKiroAgent.check_redis, hdis]
    · intro h
      exact AgentClass.noConfusion h

/-- Witness for C9 at a concrete input: a fresh Cloud Run agent with the
flag unset (the default environment). -/
theorem C9_amended_health_payload_witness :
    ((strLower ((none : Option String).getD "false") == "true") = false) ∧
    (pyGet (AgentClass.cloudrun.health_check none "t" CloudRunKiroAgent.init) "status" =
        some (.str "healthy") ∧
     pyGet (AgentClass.cloudrun.health_check none "t" CloudRunKiroAgent.init) "platform" =
        some (.str AgentClass.cloudrun.impl_platform) ∧
     pyGet (AgentClass.cloudrun.health_check none "t" CloudRunKiroAgent.init)
        "request_count" = some (.int CloudRunKiroAgent.init.request_count) ∧
     (AgentClass.cloudrun ≠ AgentClass.cloud_functions →
       ∃ cs, pyGet (AgentClass.cloudrun.health_check none "t" CloudRunKiroAgent.init)
           "checks" = some (.dict cs) ∧ pyGet cs "redis" = some (.str "disabled")) ∧
     (AgentClass.cloudrun = AgentClass.cloud_functions →
       pyGet (AgentClass.cloudrun.health_check none "t" CloudRunKiroAgent.init)
         "checks" = none)) :=
  ⟨rfl, C9_amended_health_payload AgentClass.cloudrun CloudRunKiroAgent.init none "t" rfl⟩
